import Mathlib

/-!
Verification of the reverse-geocoding proxy cache in src/main.rs.

This file gives a shallow embedding of the program's core: coordinate
normalization (the `format ("{:.5}", parse)` step of the GET handler), the
SQL prefix lookup over the append-only `geocode` table, the 40-meter
distance filter, the provider-fetch miss path with its write-through
inserts, and the two HTTP handlers (`get_geo_reverse`,
`post_geo_reverse_bulk`).

Modelling choices:
- f64 values are embedded as rationals.  Rust's `str::parse` for f64 is
  modelled for plain decimal literals (optional sign, digits, optional
  fractional part); the exotic accepted forms (inf, NaN, exponents) do not
  occur on any input this development evaluates.  `format ("{:.5}", x)` is
  modelled as exact decimal rounding of the rational value; for the inputs
  evaluated here this agrees with the f64 pipeline (no re-parsing or tie
  ambiguity arises), and the sign of a negative value that rounds to zero
  is not modelled.
- Rust's `format ("{:.4}%", lat)` applies string precision to a String,
  which truncates to at most 4 characters; the SQL `LIKE` with the
  resulting wildcard-free pattern `pfx%` is modelled as "starts with pfx"
  on the stored column value.
- The distance computation lives in the external geoutils crate
  (`Location.distance_to`), whose source is not part of this repository;
  the resolver is therefore parametrised by a distance function
  `d : (lat, lon) pairs to meters`.  A separate definition, modelled from
  the spec, embeds the great-circle haversine distance over the reals for
  the algebraic claims about the Distance Evaluator.
- The remote provider call is a parameter `p` returning the address list
  of the decoded response body; the sqlite pool is explicit state (a list
  of rows of the `geocode` table, in insertion order).
- Every `.unwrap ()` panic path is embedded as `Option.none` (for the
  resolver) or as the `HandlerResult.panicked` outcome (for the handler):
  a panic aborts the request, so store writes preceding a panic are not
  observable through a returned response and are not tracked.
-/

/-- Character is an ASCII digit, as used by the decimal-literal fragment of
Rust's f64 parsing that this development models. -/
def is_ascii_digit (c : Char) : Bool := decide ('0' ≤ c) && decide (c ≤ '9')

/-- Numeric value of an ASCII digit character. -/
def digit_val (c : Char) : Nat := c.toNat - 48

/-- Natural number denoted by a list of ASCII digit characters. -/
def nat_of_digits (ds : List Char) : Nat :=
  ds.foldl (fun acc c => acc * 10 + digit_val c) 0

/-- Model of Rust `str::parse` into f64, restricted to plain decimal
literals: optional sign, an integer digit run, and an optional fractional
part introduced by a dot, with at least one digit overall.  Unparseable
input yields `none` (in the program, the subsequent `.unwrap ()` panics).
Rust additionally accepts forms such as `inf`, `NaN` and exponents, which
never occur on the inputs this development evaluates. -/
def parse_f64 (s : String) : Option ℚ :=
  let signed : ℚ × List Char :=
    match s.data with
    | c :: cs => if c = '-' then (-1, cs) else if c = '+' then (1, cs) else (1, s.data)
    | [] => (1, [])
  let sign := signed.1
  let body := signed.2
  let intDigits := body.takeWhile is_ascii_digit
  let rest := body.dropWhile is_ascii_digit
  match rest with
  | [] => if intDigits.isEmpty then none else some (sign * (nat_of_digits intDigits : ℚ))
  | dot :: fracDigits =>
    if (dot == '.') && fracDigits.all is_ascii_digit
        && (!intDigits.isEmpty || !fracDigits.isEmpty) then
      some (sign * ((nat_of_digits intDigits : ℚ)
        + (nat_of_digits fracDigits : ℚ) / (10 : ℚ) ^ fracDigits.length))
    else none

/-- Left-pad a string with ASCII zeros up to width `w`. -/
def pad_left_zeros (s : String) (w : Nat) : String :=
  String.mk (List.replicate (w - s.data.length) '0') ++ s

/-- Model of Rust `format ("{:.prec}", x)` on an f64 value embedded as a
rational: round to `prec` decimal places and render with exactly `prec`
fractional digits.  `round` is round-half-up; Rust rounds the binary f64
value to nearest, which agrees on every value this development evaluates
(no tie cases arise).  The `-0.00000` sign of a negative value rounding to
zero is not modelled. -/
def format_decimals (q : ℚ) (prec : Nat) : String :=
  let scaled : ℤ := round (q * (10 : ℚ) ^ prec)
  let mag := scaled.natAbs
  let ip := mag / 10 ^ prec
  let fp := mag % 10 ^ prec
  (if scaled < 0 then "-" else "") ++ toString ip ++ "." ++ pad_left_zeros (toString fp) prec

/-- Model of Rust `format ("{:.4}", s)` where `s` is a String: string
precision truncates to at most `n` characters. -/
def take_chars (s : String) (n : Nat) : String := String.mk (s.data.take n)

/-- SQL LIKE matching for the patterns this program builds: the query
binds `format ("{:.4}%", lat)`, i.e. the first four characters of the
stored query string followed by the single wildcard `%`; LIKE with such a
wildcard-free-prefix pattern holds exactly when the column value starts
with that prefix. -/
def like_prefix_match (pfx s : String) : Bool := pfx.data.isPrefixOf s.data

/-- Mirror of the Rust struct `RadarAddress` (all fields optional; only
`latitude` and `longitude` take part in the resolver's computation). -/
structure RadarAddress where
  address_label : Option String
  city : Option String
  country : Option String
  country_code : Option String
  county : Option String
  formatted_address : Option String
  latitude : Option ℚ
  layer : Option String
  longitude : Option ℚ
  number : Option String
  postal_code : Option String
  state : Option String
  state_code : Option String
  street : Option String
deriving DecidableEq

/-- Mirror of the Rust struct `Geocode`: one row of the `geocode` table
(stored query lat string, stored query lon string, JSON-decoded address). -/
structure Geocode where
  lat : String
  lon : String
  address : RadarAddress
deriving DecidableEq

/-- Mirror of the Rust struct `GeocodeResponse`: one resolved address of
the response body. -/
structure GeocodeResponse where
  lat : String
  lon : String
  distance : ℚ
  address : RadarAddress
deriving DecidableEq

/-- Outcome of one `geo_reverse` resolution: the response body, the store
contents after the request (the `geocode` table rows, in insertion order),
and whether the remote Provider Client was invoked. -/
structure ResolveOut where
  result : List GeocodeResponse
  store : List Geocode
  provider_called : Bool
deriving DecidableEq

/-- Row predicate of the cache query
`SELECT * FROM geocode WHERE lat LIKE ? AND lon LIKE ?` with the two bound
patterns `format ("{:.4}%", lat)` and `format ("{:.4}%", lon)`: the stored
strings must start with the first four characters of the query strings. -/
def lookup_pred (lat lon : String) (g : Geocode) : Bool :=
  like_prefix_match (take_chars lat 4) g.lat && like_prefix_match (take_chars lon 4) g.lon

/-- The cache lookup of `geo_reverse` (main.rs lines 149-155): all rows of
the `geocode` table matching both LIKE patterns, in table order. -/
def cache_lookup (store : List Geocode) (lat lon : String) : List Geocode :=
  store.filter (lookup_pred lat lon)

/-- The per-row closure of the cache path (main.rs lines 157-168): build a
`GeocodeResponse` echoing the query strings, carrying the row's address,
and the distance from the address's own coordinate to the parsed query
coordinate.  `none` models the `.unwrap ()` panics: address missing a
latitude or longitude, or an unparseable query string. -/
def row_response (d : ℚ × ℚ → ℚ × ℚ → ℚ) (lat lon : String) (g : Geocode) :
    Option GeocodeResponse :=
  match g.address.latitude, g.address.longitude, parse_f64 lat, parse_f64 lon with
  | some alat, some alon, some qlat, some qlon =>
    some ⟨lat, lon, d (alat, alon) (qlat, qlon), g.address⟩
  | _, _, _, _ => none

/-- Map the per-row closure over the looked-up rows, propagating any panic. -/
def map_rows (d : ℚ × ℚ → ℚ × ℚ → ℚ) (lat lon : String) :
    List Geocode → Option (List GeocodeResponse)
  | [] => some []
  | g :: gs =>
    match row_response d lat lon g, map_rows d lat lon gs with
    | some r, some rs => some (r :: rs)
    | _, _ => none

/-- The per-address closure of the miss path (main.rs lines 203-214):
identical computation to the cache path, applied to a provider address. -/
def address_response (d : ℚ × ℚ → ℚ × ℚ → ℚ) (lat lon : String) (a : RadarAddress) :
    Option GeocodeResponse :=
  match a.latitude, a.longitude, parse_f64 lat, parse_f64 lon with
  | some alat, some alon, some qlat, some qlon =>
    some ⟨lat, lon, d (alat, alon) (qlat, qlon), a⟩
  | _, _, _, _ => none

/-- Map the per-address closure over the provider's addresses, propagating
any panic. -/
def map_addresses (d : ℚ × ℚ → ℚ × ℚ → ℚ) (lat lon : String) :
    List RadarAddress → Option (List GeocodeResponse)
  | [] => some []
  | a :: as_ =>
    match address_response d lat lon a, map_addresses d lat lon as_ with
    | some r, some rs => some (r :: rs)
    | _, _ => none

/-- The 40-meter cutoff of the cache path (main.rs line 169):
`.filter (g.distance < 40.0)` with a strict comparison. -/
def distance_filter (gs : List GeocodeResponse) : List GeocodeResponse :=
  gs.filter (fun g => decide (g.distance < 40))

/-- The distance-filtered candidate set the cache path builds
(main.rs lines 149-170): looked-up rows, mapped through the per-row
closure, then filtered by the 40-meter cutoff. -/
def hit_candidates (d : ℚ × ℚ → ℚ × ℚ → ℚ) (lat lon : String)
    (store : List Geocode) : Option (List GeocodeResponse) :=
  (map_rows d lat lon (cache_lookup store lat lon)).map distance_filter

/-- The resolver `geo_reverse` (main.rs lines 144-216), parametrised by
the distance function `d` (the external geoutils crate) and the provider
`p` (the decoded `addresses` array of the remote response).  If the
filtered candidate set is non-empty it is returned as a cache hit with the
store untouched; otherwise every provider address is inserted as a row
keyed by the query strings (write-through, in provider order) and the
unfiltered per-address responses are returned. -/
def geo_reverse (d : ℚ × ℚ → ℚ × ℚ → ℚ) (p : String → String → List RadarAddress)
    (lat lon : String) (store : List Geocode) : Option ResolveOut :=
  match hit_candidates d lat lon store with
  | none => none
  | some geocodes =>
    if geocodes.length > 0 then
      some ⟨geocodes, store, false⟩
    else
      match map_addresses d lat lon (p lat lon) with
      | none => none
      | some rs => some ⟨rs, store ++ (p lat lon).map (fun a => ⟨lat, lon, a⟩), true⟩

/-- Outcome of the GET handler: a 200 response with a body, a 400 client
error with its diagnostic string, or a panic (`.unwrap ()` on a failed
parse), which aborts the handler without producing an HTTP response. -/
inductive HandlerResult where
  | ok (body : List GeocodeResponse) : HandlerResult
  | badRequest (msg : String) : HandlerResult
  | panicked : HandlerResult
deriving DecidableEq

/-- The handler `get_geo_reverse` (main.rs lines 105-123): the `lat` query
parameter is fetched (400 `missing lat` if absent), parsed
(`.unwrap ()` panic if unparseable) and reformatted to exactly 5 decimal
places; then the same for `lon`; then `geo_reverse` runs on the two
normalized strings.  The store after the request is returned alongside. -/
def get_geo_reverse (d : ℚ × ℚ → ℚ × ℚ → ℚ) (p : String → String → List RadarAddress)
    (params : String → Option String) (store : List Geocode) :
    HandlerResult × List Geocode :=
  match params ("lat") with
  | none => (HandlerResult.badRequest ("missing lat"), store)
  | some rawLat =>
    match parse_f64 rawLat with
    | none => (HandlerResult.panicked, store)
    | some flat =>
      let lat := format_decimals flat 5
      match params ("lon") with
      | none => (HandlerResult.badRequest ("missing lon"), store)
      | some rawLon =>
        match parse_f64 rawLon with
        | none => (HandlerResult.panicked, store)
        | some flon =>
          let lon := format_decimals flon 5
          match geo_reverse d p lat lon store with
          | none => (HandlerResult.panicked, store)
          | some out => (HandlerResult.ok out.result, out.store)

/-- The loop of `post_geo_reverse_bulk` (main.rs lines 136-139): resolve
each sub-request in order against the threaded store, passing the raw
`lat`/`lon` strings of the request body straight to `geo_reverse`,
collecting one result list per sub-request; any panic aborts the batch. -/
def run_bulk (d : ℚ × ℚ → ℚ × ℚ → ℚ) (p : String → String → List RadarAddress) :
    List (String × String) → List Geocode →
    Option (List (List GeocodeResponse) × List Geocode)
  | [], store => some ([], store)
  | (lat, lon) :: rest, store =>
    match geo_reverse d p lat lon store with
    | none => none
    | some out =>
      match run_bulk d p rest out.store with
      | none => none
      | some (lists, st) => some (out.result :: lists, st)

/-- The handler `post_geo_reverse_bulk` (main.rs lines 132-142): run the
loop, then flatten the per-request result lists into one flat array. -/
def post_geo_reverse_bulk (d : ℚ × ℚ → ℚ × ℚ → ℚ)
    (p : String → String → List RadarAddress) (reqs : List (String × String))
    (store : List Geocode) : Option (List GeocodeResponse × List Geocode) :=
  match run_bulk d p reqs store with
  | none => none
  | some (lists, st) => some (lists.flatten, st)

/-! Concrete sample data used by the counterexamples and witnesses. -/

/-- An address record carrying only its own coordinate, as the resolver
uses it. -/
def sample_address (la lo : ℚ) : RadarAddress :=
  ⟨none, none, none, none, none, none, some la, none, some lo, none, none, none, none, none⟩

/-- Modelled from the spec: a concrete instance of the external Distance
Evaluator (section 4.2, the geoutils crate) used to evaluate scenarios.
Near the equator one degree of latitude measures about 110574 meters and
one degree of longitude about 111320 meters; on the pure-latitude offsets
the scenarios use, this agrees with the great-circle distance far more
closely than the 40-meter tolerance under test. -/
def distSample (a b : ℚ × ℚ) : ℚ := 110574 * |a.1 - b.1| + 111320 * |a.2 - b.2|

/-- Provider double returning no addresses. -/
def provider_none : String → String → List RadarAddress := fun _ _ => []

/-- Provider double returning one address exactly at the origin query
point (distance 0). -/
def provider_near : String → String → List RadarAddress :=
  fun _ _ => [sample_address 0 0]

/-- Provider double returning one address one degree of latitude away from
the origin query point (about 110574 meters, far beyond 40 meters). -/
def provider_far : String → String → List RadarAddress :=
  fun _ _ => [sample_address 1 0]

/-- Cached row for the origin query whose address is at the query point. -/
def row_near : Geocode := ⟨"0.00000", "0.00000", sample_address 0 0⟩

/-- Cached row for the origin query whose address is one degree away. -/
def row_far : Geocode := ⟨"0.00000", "0.00000", sample_address 1 0⟩

/-- Response for the origin query resolving to the address at the origin. -/
def resp_near : GeocodeResponse :=
  ⟨"0.00000", "0.00000", distSample (0, 0) (0, 0), sample_address 0 0⟩

/-- Response for the origin query resolving to the address one degree
away. -/
def resp_far : GeocodeResponse :=
  ⟨"0.00000", "0.00000", distSample (1, 0) (0, 0), sample_address 1 0⟩

/-- Query-parameter map of a GET request carrying the two given raw
values. -/
def param_map (a b : String) : String → Option String :=
  fun k => if k = "lat" then some a else if k = "lon" then some b else none

/-- Query parameters with an unparseable latitude. -/
def params_abc : String → Option String := param_map ("abc") ("0")

/-- Query parameters missing the latitude entirely. -/
def params_nolat : String → Option String :=
  fun k => if k = "lon" then some ("0") else none

/-- Modelled from the spec: the Distance Evaluator of section 4.2 is the
external geoutils crate (`Location.distance_to`), whose source is not part
of this repository; the spec describes it as a deterministic great-circle
(haversine or equivalent) distance in meters.  This embeds the haversine
formula over the reals with the conventional mean earth radius, on
(latitude, longitude) pairs in decimal degrees. -/
noncomputable def distanceMeters (a b : ℝ × ℝ) : ℝ :=
  let phi1 := a.1 * (Real.pi / 180)
  let phi2 := b.1 * (Real.pi / 180)
  let lam1 := a.2 * (Real.pi / 180)
  let lam2 := b.2 * (Real.pi / 180)
  2 * 6371000 * Real.arcsin (Real.sqrt (Real.sin ((phi2 - phi1) / 2) ^ 2
    + Real.cos phi1 * Real.cos phi2 * Real.sin ((lam2 - lam1) / 2) ^ 2))

/-! Structural lemmas about the embedded operations. -/

lemma isPrefixOf_take (l : List Char) : ∀ n : Nat, (l.take n).isPrefixOf l = true := by
  induction l with
  | nil => intro n; simp [List.isPrefixOf]
  | cons c cs ih =>
    intro n
    cases n with
    | zero => simp [List.isPrefixOf]
    | succ m => simp [List.isPrefixOf, ih m]

lemma lookup_pred_self (lat lon : String) (a : RadarAddress) :
    lookup_pred lat lon ⟨lat, lon, a⟩ = true := by
  simp [lookup_pred, like_prefix_match, take_chars, isPrefixOf_take]

lemma cache_lookup_append (store1 store2 : List Geocode) (lat lon : String) :
    cache_lookup (store1 ++ store2) lat lon =
      cache_lookup store1 lat lon ++ cache_lookup store2 lat lon := by
  simp [cache_lookup, List.filter_append]

lemma cache_lookup_fresh_rows (lat lon : String) (addrs : List RadarAddress) :
    cache_lookup (addrs.map (fun a => ⟨lat, lon, a⟩)) lat lon =
      addrs.map (fun a => (⟨lat, lon, a⟩ : Geocode)) := by
  unfold cache_lookup
  rw [List.filter_eq_self]
  intro g hg
  rcases List.mem_map.mp hg with ⟨a, _, rfl⟩
  exact lookup_pred_self lat lon a

lemma row_response_fresh (d : ℚ × ℚ → ℚ × ℚ → ℚ) (lat lon : String) (a : RadarAddress) :
    row_response d lat lon ⟨lat, lon, a⟩ = address_response d lat lon a := rfl

lemma map_rows_append (d : ℚ × ℚ → ℚ × ℚ → ℚ) (lat lon : String) :
    ∀ (xs ys : List Geocode) (rs ss : List GeocodeResponse),
      map_rows d lat lon xs = some rs → map_rows d lat lon ys = some ss →
      map_rows d lat lon (xs ++ ys) = some (rs ++ ss) := by
  intro xs
  induction xs with
  | nil =>
    intro ys rs ss h1 h2
    simp only [map_rows, Option.some.injEq] at h1
    subst h1
    simpa using h2
  | cons g gs ih =>
    intro ys rs ss h1 h2
    simp only [map_rows] at h1
    rw [List.cons_append]
    simp only [map_rows]
    cases hr : row_response d lat lon g with
    | none => rw [hr] at h1; simp at h1
    | some r =>
      rw [hr] at h1
      cases hm : map_rows d lat lon gs with
      | none => rw [hm] at h1; simp at h1
      | some rs0 =>
        rw [hm] at h1
        simp only [Option.some.injEq] at h1
        subst h1
        rw [ih ys rs0 ss hm h2]
        rfl

lemma map_rows_fresh (d : ℚ × ℚ → ℚ × ℚ → ℚ) (lat lon : String) :
    ∀ addrs : List RadarAddress,
      map_rows d lat lon (addrs.map (fun a => ⟨lat, lon, a⟩)) =
        map_addresses d lat lon addrs := by
  intro addrs
  induction addrs with
  | nil => rfl
  | cons a as_ ih =>
    simp only [List.map_cons, map_rows, map_addresses, row_response_fresh, ih]

lemma address_response_inv (d : ℚ × ℚ → ℚ × ℚ → ℚ) (lat lon : String)
    (a : RadarAddress) (r : GeocodeResponse)
    (h : address_response d lat lon a = some r) :
    ∃ alat alon qlat qlon,
      a.latitude = some alat ∧ a.longitude = some alon ∧
      parse_f64 lat = some qlat ∧ parse_f64 lon = some qlon ∧
      r = ⟨lat, lon, d (alat, alon) (qlat, qlon), a⟩ := by
  unfold address_response at h
  cases hla : a.latitude with
  | none => rw [hla] at h; simp at h
  | some alat =>
    rw [hla] at h
    cases hlo : a.longitude with
    | none => rw [hlo] at h; simp at h
    | some alon =>
      rw [hlo] at h
      cases hpa : parse_f64 lat with
      | none => rw [hpa] at h; simp at h
      | some qlat =>
        rw [hpa] at h
        cases hpo : parse_f64 lon with
        | none => rw [hpo] at h; simp at h
        | some qlon =>
          rw [hpo] at h
          simp only [Option.some.injEq] at h
          exact ⟨alat, alon, qlat, qlon, rfl, rfl, rfl, rfl, h.symm⟩

lemma map_addresses_proj (d : ℚ × ℚ → ℚ × ℚ → ℚ) (lat lon : String) :
    ∀ (addrs : List RadarAddress) (rs : List GeocodeResponse),
      map_addresses d lat lon addrs = some rs →
      rs.map GeocodeResponse.address = addrs := by
  intro addrs
  induction addrs with
  | nil =>
    intro rs h
    simp only [map_addresses, Option.some.injEq] at h
    subst h
    rfl
  | cons a as_ ih =>
    intro rs h
    simp only [map_addresses] at h
    cases har : address_response d lat lon a with
    | none => rw [har] at h; simp at h
    | some r =>
      rw [har] at h
      cases hm : map_addresses d lat lon as_ with
      | none => rw [hm] at h; simp at h
      | some rs0 =>
        rw [hm] at h
        simp only [Option.some.injEq] at h
        subst h
        rcases address_response_inv d lat lon a r har with ⟨_, _, _, _, _, _, _, _, hr⟩
        subst hr
        simp [ih rs0 hm]

lemma map_addresses_length (d : ℚ × ℚ → ℚ × ℚ → ℚ) (lat lon : String)
    (addrs : List RadarAddress) (rs : List GeocodeResponse)
    (h : map_addresses d lat lon addrs = some rs) : rs.length = addrs.length := by
  have := map_addresses_proj d lat lon addrs rs h
  calc rs.length = (rs.map GeocodeResponse.address).length := by simp
  _ = addrs.length := by rw [this]

lemma map_addresses_mem (d : ℚ × ℚ → ℚ × ℚ → ℚ) (lat lon : String) :
    ∀ (addrs : List RadarAddress) (rs : List GeocodeResponse) (a : RadarAddress)
      (alat alon qlat qlon : ℚ),
      map_addresses d lat lon addrs = some rs → a ∈ addrs →
      a.latitude = some alat → a.longitude = some alon →
      parse_f64 lat = some qlat → parse_f64 lon = some qlon →
      (⟨lat, lon, d (alat, alon) (qlat, qlon), a⟩ : GeocodeResponse) ∈ rs := by
  intro addrs
  induction addrs with
  | nil => intro rs a _ _ _ _ _ hmem; simp at hmem
  | cons b bs ih =>
    intro rs a alat alon qlat qlon h hmem hla hlo hpa hpo
    simp only [map_addresses] at h
    cases har : address_response d lat lon b with
    | none => rw [har] at h; simp at h
    | some r =>
      rw [har] at h
      cases hm : map_addresses d lat lon bs with
      | none => rw [hm] at h; simp at h
      | some rs0 =>
        rw [hm] at h
        simp only [Option.some.injEq] at h
        subst h
        rcases List.mem_cons.mp hmem with rfl | hmem2
        · have heval : address_response d lat lon a =
              some ⟨lat, lon, d (alat, alon) (qlat, qlon), a⟩ := by
            unfold address_response
            rw [hla, hlo, hpa, hpo]
          rw [heval] at har
          simp only [Option.some.injEq] at har
          rw [har]
          exact List.mem_cons_self _ _
        · exact List.mem_cons_of_mem _ (ih rs0 a alat alon qlat qlon hm hmem2 hla hlo hpa hpo)

lemma hit_candidates_eq (d : ℚ × ℚ → ℚ × ℚ → ℚ) (lat lon : String)
    (store : List Geocode) (ms : List GeocodeResponse)
    (h : map_rows d lat lon (cache_lookup store lat lon) = some ms) :
    hit_candidates d lat lon store = some (distance_filter ms) := by
  unfold hit_candidates
  rw [h]
  rfl

lemma hit_candidates_inv (d : ℚ × ℚ → ℚ × ℚ → ℚ) (lat lon : String)
    (store : List Geocode) (gs : List GeocodeResponse)
    (h : hit_candidates d lat lon store = some gs) :
    ∃ ms, map_rows d lat lon (cache_lookup store lat lon) = some ms ∧
      gs = distance_filter ms := by
  unfold hit_candidates at h
  cases hm : map_rows d lat lon (cache_lookup store lat lon) with
  | none => rw [hm] at h; simp at h
  | some ms =>
    rw [hm] at h
    simp only [Option.map_some', Option.some.injEq] at h
    exact ⟨ms, rfl, h.symm⟩

lemma geo_reverse_hit (d : ℚ × ℚ → ℚ × ℚ → ℚ) (p : String → String → List RadarAddress)
    (lat lon : String) (store : List Geocode) (gs : List GeocodeResponse)
    (hh : hit_candidates d lat lon store = some gs) (hne : gs ≠ []) :
    geo_reverse d p lat lon store = some ⟨gs, store, false⟩ := by
  have hl : gs.length > 0 := List.length_pos.mpr hne
  simp [geo_reverse, hh, hl]

lemma geo_reverse_miss (d : ℚ × ℚ → ℚ × ℚ → ℚ) (p : String → String → List RadarAddress)
    (lat lon : String) (store : List Geocode) (rs : List GeocodeResponse)
    (hh : hit_candidates d lat lon store = some [])
    (hm : map_addresses d lat lon (p lat lon) = some rs) :
    geo_reverse d p lat lon store =
      some ⟨rs, store ++ (p lat lon).map (fun a => ⟨lat, lon, a⟩), true⟩ := by
  simp [geo_reverse, hh, hm]

lemma geo_reverse_inv (d : ℚ × ℚ → ℚ × ℚ → ℚ) (p : String → String → List RadarAddress)
    (lat lon : String) (store : List Geocode) (out : ResolveOut)
    (h : geo_reverse d p lat lon store = some out) :
    (∃ gs, hit_candidates d lat lon store = some gs ∧ gs ≠ [] ∧
      out = ⟨gs, store, false⟩) ∨
    (∃ rs, hit_candidates d lat lon store = some [] ∧
      map_addresses d lat lon (p lat lon) = some rs ∧
      out = ⟨rs, store ++ (p lat lon).map (fun a => ⟨lat, lon, a⟩), true⟩) := by
  unfold geo_reverse at h
  cases hh : hit_candidates d lat lon store with
  | none => rw [hh] at h; simp at h
  | some gs =>
    rw [hh] at h
    dsimp only at h
    by_cases hl : gs.length > 0
    · rw [if_pos hl] at h
      simp only [Option.some.injEq] at h
      exact Or.inl ⟨gs, rfl, List.length_pos.mp hl, h.symm⟩
    · rw [if_neg hl] at h
      have hgs : gs = [] := List.length_eq_zero.mp (Nat.eq_zero_of_not_pos hl)
      subst hgs
      cases hm : map_addresses d lat lon (p lat lon) with
      | none => rw [hm] at h; simp at h
      | some rs =>
        rw [hm] at h
        simp only [Option.some.injEq] at h
        exact Or.inr ⟨rs, rfl, rfl, h.symm⟩

lemma run_bulk_cons (d : ℚ × ℚ → ℚ × ℚ → ℚ) (p : String → String → List RadarAddress)
    (lat lon : String) (rest : List (String × String)) (store : List Geocode)
    (out : ResolveOut) (lists : List (List GeocodeResponse)) (st : List Geocode)
    (h1 : geo_reverse d p lat lon store = some out)
    (h2 : run_bulk d p rest out.store = some (lists, st)) :
    run_bulk d p ((lat, lon) :: rest) store = some (out.result :: lists, st) := by
  simp only [run_bulk, h1, h2]

lemma post_bulk_inv (d : ℚ × ℚ → ℚ × ℚ → ℚ) (p : String → String → List RadarAddress)
    (reqs : List (String × String)) (store : List Geocode)
    (flat : List GeocodeResponse) (st : List Geocode)
    (h : post_geo_reverse_bulk d p reqs store = some (flat, st)) :
    ∃ lists, run_bulk d p reqs store = some (lists, st) ∧ flat = lists.flatten := by
  unfold post_geo_reverse_bulk at h
  cases hr : run_bulk d p reqs store with
  | none => rw [hr] at h; simp at h
  | some ls =>
    obtain ⟨lists, st2⟩ := ls
    rw [hr] at h
    simp only [Option.some.injEq, Prod.mk.injEq] at h
    exact ⟨lists, by rw [h.2], h.1.symm⟩


lemma nod_d0 : nat_of_digits (['0']) = 0 := by decide

lemma nod_d00000 : nat_of_digits (['0', '0', '0', '0', '0']) = 0 := by decide

lemma nod_d1 : nat_of_digits (['1']) = 1 := by decide

lemma nod_d234567 : nat_of_digits (['2', '3', '4', '5', '6', '7']) = 234567 := by decide

lemma nod_d23457 : nat_of_digits (['2', '3', '4', '5', '7']) = 23457 := by decide

lemma parse_zero : parse_f64 ("0") = some 0 := by
  norm_num +decide [parse_f64, is_ascii_digit, nod_d0]

lemma parse_zero5 : parse_f64 ("0.00000") = some 0 := by
  norm_num +decide [parse_f64, is_ascii_digit, nod_d0, nod_d00000]

lemma parse_123457 : parse_f64 ("1.23457") = some (123457 / 100000) := by
  norm_num +decide [parse_f64, is_ascii_digit, nod_d1, nod_d23457]

lemma parse_1234567 : parse_f64 ("1.234567") = some (1234567 / 1000000) := by
  norm_num +decide [parse_f64, is_ascii_digit, nod_d1, nod_d234567]

lemma parse_abc : parse_f64 ("abc") = none := by
  norm_num +decide [parse_f64, is_ascii_digit]

lemma round_z5 : round ((0 : ℚ) * (10 : ℚ) ^ 5) = 0 := by norm_num

lemma round_q5 : round ((1234567 / 1000000 : ℚ) * (10 : ℚ) ^ 5) = 123457 := by
  rw [round_eq]
  norm_num

lemma fmt_zero : format_decimals 0 5 = "0.00000" := by
  rw [format_decimals, round_z5]
  decide

lemma fmt_1234567 : format_decimals (1234567 / 1000000) 5 = "1.23457" := by
  rw [format_decimals, round_q5]
  decide

lemma hit_candidates_nil (d : ℚ × ℚ → ℚ × ℚ → ℚ) (lat lon : String) :
    hit_candidates d lat lon [] = some [] := rfl

lemma ev_ma_near : map_addresses distSample ("0.00000") ("0.00000") [sample_address 0 0] =
    some [resp_near] := by
  simp [map_addresses, address_response, sample_address, parse_zero5, resp_near, distSample]

lemma ev_ma_far : map_addresses distSample ("0.00000") ("0.00000") [sample_address 1 0] =
    some [resp_far] := by
  simp [map_addresses, address_response, sample_address, parse_zero5, resp_far, distSample]

lemma ev_gr_miss_near : geo_reverse distSample provider_near ("0.00000") ("0.00000") [] =
    some ⟨[resp_near], [row_near], true⟩ := by
  have h := geo_reverse_miss distSample provider_near ("0.00000") ("0.00000") [] [resp_near]
    (hit_candidates_nil distSample ("0.00000") ("0.00000"))
    (by simpa [provider_near] using ev_ma_near)
  simpa [provider_near, row_near] using h

lemma ev_gr_miss_far : geo_reverse distSample provider_far ("0.00000") ("0.00000") [] =
    some ⟨[resp_far], [row_far], true⟩ := by
  have h := geo_reverse_miss distSample provider_far ("0.00000") ("0.00000") [] [resp_far]
    (hit_candidates_nil distSample ("0.00000") ("0.00000"))
    (by simpa [provider_far] using ev_ma_far)
  simpa [provider_far, row_far] using h

lemma lp_row_near : lookup_pred ("0.00000") ("0.00000") row_near = true := by decide

lemma lp_row_far : lookup_pred ("0.00000") ("0.00000") row_far = true := by decide

lemma ev_cl_near : cache_lookup [row_near] ("0.00000") ("0.00000") = [row_near] := by
  simp [cache_lookup, List.filter, lp_row_near]

lemma ev_cl_far : cache_lookup [row_far] ("0.00000") ("0.00000") = [row_far] := by
  simp [cache_lookup, List.filter, lp_row_far]

lemma ev_mr_near : map_rows distSample ("0.00000") ("0.00000") [row_near] =
    some [resp_near] := by
  simp [map_rows, row_response, row_near, sample_address, parse_zero5, resp_near, distSample]

lemma ev_mr_far : map_rows distSample ("0.00000") ("0.00000") [row_far] =
    some [resp_far] := by
  simp [map_rows, row_response, row_far, sample_address, parse_zero5, resp_far, distSample]

lemma ev_hc_hit_near : hit_candidates distSample ("0.00000") ("0.00000") [row_near] =
    some [resp_near] := by
  rw [hit_candidates_eq distSample ("0.00000") ("0.00000") [row_near] [resp_near]
    (by rw [ev_cl_near]; exact ev_mr_near)]
  have hd : distSample (0 : ℚ × ℚ) (0 : ℚ × ℚ) < 40 := by norm_num [distSample]
  simp [distance_filter, List.filter_cons, resp_near, hd]

lemma ev_hc_repeat_far : hit_candidates distSample ("0.00000") ("0.00000") [row_far] =
    some [] := by
  rw [hit_candidates_eq distSample ("0.00000") ("0.00000") [row_far] [resp_far]
    (by rw [ev_cl_far]; exact ev_mr_far)]
  have hd : ¬ (distSample ((1 : ℚ), (0 : ℚ)) (0 : ℚ × ℚ) < 40) := by norm_num [distSample]
  simp [distance_filter, List.filter_cons, resp_far, hd]

lemma ev_gr_hit_near (p : String → String → List RadarAddress) :
    geo_reverse distSample p ("0.00000") ("0.00000") [row_near] =
      some ⟨[resp_near], [row_near], false⟩ :=
  geo_reverse_hit distSample p ("0.00000") ("0.00000") [row_near] [resp_near]
    ev_hc_hit_near (by simp)

lemma ev_gr_repeat_far : geo_reverse distSample provider_far ("0.00000") ("0.00000")
    [row_far] = some ⟨[resp_far], [row_far, row_far], true⟩ := by
  have h := geo_reverse_miss distSample provider_far ("0.00000") ("0.00000") [row_far]
    [resp_far] ev_hc_repeat_far (by simpa [provider_far] using ev_ma_far)
  simpa [provider_far, row_far] using h

lemma ev_gr_exact_repeat : geo_reverse distSample provider_none ("0.00000") ("0.00000")
    [row_far] = some ⟨[], [row_far], true⟩ := by
  have h := geo_reverse_miss distSample provider_none ("0.00000") ("0.00000") [row_far]
    [] ev_hc_repeat_far (by simp [provider_none, map_addresses])
  simpa [provider_none] using h

lemma ev_get_abc : get_geo_reverse distSample provider_none params_abc [] =
    (HandlerResult.panicked, []) := by
  simp [get_geo_reverse, params_abc, param_map, parse_abc]

lemma ev_get_nolat : get_geo_reverse distSample provider_none params_nolat [] =
    (HandlerResult.badRequest ("missing lat"), []) := by
  simp [get_geo_reverse, params_nolat]

lemma ev_ma_c4get : map_addresses distSample ("1.23457") ("0.00000") [sample_address 0 0] =
    some [⟨"1.23457", "0.00000", distSample (0, 0) (123457 / 100000, 0),
      sample_address 0 0⟩] := by
  simp [map_addresses, address_response, sample_address, parse_123457, parse_zero5]

lemma ev_gr_c4get : geo_reverse distSample provider_near ("1.23457") ("0.00000") [] =
    some ⟨[⟨"1.23457", "0.00000", distSample (0, 0) (123457 / 100000, 0),
        sample_address 0 0⟩],
      [⟨"1.23457", "0.00000", sample_address 0 0⟩], true⟩ := by
  have h := geo_reverse_miss distSample provider_near ("1.23457") ("0.00000") []
    [⟨"1.23457", "0.00000", distSample (0, 0) (123457 / 100000, 0), sample_address 0 0⟩]
    (hit_candidates_nil distSample ("1.23457") ("0.00000"))
    (by simpa [provider_near] using ev_ma_c4get)
  simpa [provider_near] using h

lemma ev_get_c4 : (get_geo_reverse distSample provider_near
    (param_map ("1.234567") ("0")) []).2 =
    [⟨"1.23457", "0.00000", sample_address 0 0⟩] := by
  simp [get_geo_reverse, param_map, parse_1234567, fmt_1234567, parse_zero, fmt_zero,
    ev_gr_c4get]

lemma ev_ma_c4bulk : map_addresses distSample ("1.234567") ("0") [sample_address 0 0] =
    some [⟨"1.234567", "0", distSample (0, 0) (1234567 / 1000000, 0),
      sample_address 0 0⟩] := by
  simp [map_addresses, address_response, sample_address, parse_1234567, parse_zero]

lemma ev_gr_c4bulk : geo_reverse distSample provider_near ("1.234567") ("0") [] =
    some ⟨[⟨"1.234567", "0", distSample (0, 0) (1234567 / 1000000, 0),
        sample_address 0 0⟩],
      [⟨"1.234567", "0", sample_address 0 0⟩], true⟩ := by
  have h := geo_reverse_miss distSample provider_near ("1.234567") ("0") []
    [⟨"1.234567", "0", distSample (0, 0) (1234567 / 1000000, 0), sample_address 0 0⟩]
    (hit_candidates_nil distSample ("1.234567") ("0"))
    (by simpa [provider_near] using ev_ma_c4bulk)
  simpa [provider_near] using h

lemma ev_bulk_c4 : Option.map Prod.snd (post_geo_reverse_bulk distSample provider_near
    [(("1.234567"), ("0"))] []) = some [⟨"1.234567", "0", sample_address 0 0⟩] := by
  simp [post_geo_reverse_bulk, run_bulk, ev_gr_c4bulk]

lemma ev_bulk_tail : post_geo_reverse_bulk distSample provider_near
    [(("0.00000"), ("0.00000"))] [row_near] = some ([resp_near], [row_near]) := by
  simp [post_geo_reverse_bulk, run_bulk, ev_gr_hit_near provider_near]

lemma ds_origin_lt : distSample (0, 0) (0, 0) < 40 := by norm_num [distSample]

/-! Claim theorems. -/

/-- C1 counterexample: with an empty store, resolving the origin
coordinate is a miss; the provider returns one (non-empty) address, which
is inserted before the response is returned — yet the immediately repeated
resolution of the same lat/lon strings, on exactly the store the first
call produced, invokes the Provider Client again (provider_called = true)
and inserts a duplicate row, because the single cached address lies about
110574 meters from the query point and the 40-meter filter removes it.
This refutes the claim that such a repeat is always a cache hit. -/
theorem c1_counterexample :
    geo_reverse distSample provider_far ("0.00000") ("0.00000") [] =
      some ⟨[resp_far], [row_far], true⟩ ∧
    geo_reverse distSample provider_far ("0.00000") ("0.00000") [row_far] =
      some ⟨[resp_far], [row_far, row_far], true⟩ :=
  ⟨ev_gr_miss_far, ev_gr_repeat_far⟩

/-- C1 (amended): write-through repeat-hit holds under the proviso the
40-meter filter imposes — if a miss inserts the provider's addresses and
at least one of those addresses' own coordinates lies strictly within 40.0
meters of the parsed query coordinate, then the immediately repeated
resolution of the same lat/lon strings on the resulting store is a cache
hit: a non-empty result with no Provider Client invocation. -/
theorem c1_amended_write_through (d : ℚ × ℚ → ℚ × ℚ → ℚ)
    (p : String → String → List RadarAddress) (lat lon : String)
    (store : List Geocode) (out1 : ResolveOut) (a : RadarAddress)
    (alat alon qlat qlon : ℚ)
    (h1 : geo_reverse d p lat lon store = some out1)
    (hcall : out1.provider_called = true)
    (ha : a ∈ p lat lon)
    (hla : a.latitude = some alat) (hlo : a.longitude = some alon)
    (hpa : parse_f64 lat = some qlat) (hpo : parse_f64 lon = some qlon)
    (hnear : d (alat, alon) (qlat, qlon) < 40) :
    ∃ out2, geo_reverse d p lat lon out1.store = some out2 ∧
      out2.provider_called = false ∧ out2.result ≠ [] := by
  rcases geo_reverse_inv d p lat lon store out1 h1 with
    ⟨gs, _, _, hout⟩ | ⟨rs, hh0, hm, hout⟩
  · subst hout; simp at hcall
  · subst hout
    rcases hit_candidates_inv d lat lon store [] hh0 with ⟨ms, hmr, _⟩
    have hcl2 : cache_lookup (store ++ (p lat lon).map (fun a => ⟨lat, lon, a⟩)) lat lon =
        cache_lookup store lat lon ++ (p lat lon).map (fun a => ⟨lat, lon, a⟩) := by
      rw [cache_lookup_append, cache_lookup_fresh_rows]
    have hmr2 : map_rows d lat lon
        (cache_lookup (store ++ (p lat lon).map (fun a => ⟨lat, lon, a⟩)) lat lon) =
        some (ms ++ rs) := by
      rw [hcl2]
      exact map_rows_append d lat lon _ _ ms rs hmr
        (by rw [map_rows_fresh]; exact hm)
    have hh2 := hit_candidates_eq d lat lon _ _ hmr2
    have hr0 : (⟨lat, lon, d (alat, alon) (qlat, qlon), a⟩ : GeocodeResponse) ∈ rs :=
      map_addresses_mem d lat lon (p lat lon) rs a alat alon qlat qlon hm ha hla hlo hpa hpo
    have hr0f : (⟨lat, lon, d (alat, alon) (qlat, qlon), a⟩ : GeocodeResponse) ∈
        distance_filter (ms ++ rs) := by
      unfold distance_filter
      refine List.mem_filter.mpr ⟨List.mem_append_right ms hr0, ?_⟩
      simpa using hnear
    have hne : distance_filter (ms ++ rs) ≠ [] := List.ne_nil_of_mem hr0f
    exact ⟨⟨distance_filter (ms ++ rs),
      store ++ (p lat lon).map (fun a => ⟨lat, lon, a⟩), false⟩,
      geo_reverse_hit d p lat lon _ _ hh2 hne, rfl, hne⟩

/-- C1 witness: on the store produced by a miss whose provider address
sits exactly at the query point (distance 0 < 40), the repeated
resolution is a hit with a non-empty result and no provider call. -/
theorem c1_amended_witness :
    ∃ out2, geo_reverse distSample provider_near ("0.00000") ("0.00000") [row_near] =
      some out2 ∧ out2.provider_called = false ∧ out2.result ≠ [] :=
  c1_amended_write_through distSample provider_near ("0.00000") ("0.00000") []
    ⟨[resp_near], [row_near], true⟩ (sample_address 0 0) 0 0 0 0
    ev_gr_miss_near rfl (List.mem_singleton_self _) rfl rfl parse_zero5 parse_zero5
    ds_origin_lt

/-- C2 counterexample: the store holds exactly one entry whose stored
queryLat/queryLon ("0.00000", "0.00000") equal the current request's
normalized key, but whose address coordinate is one degree (about 110574
meters, in particular at least 40 meters) from the query point.  The
resolver does not keep it: the filtered set is empty, the response is
empty, and the Provider Client is invoked (provider_called = true) — so
the claimed exact-repeat override does not exist in the code. -/
theorem c2_counterexample :
    geo_reverse distSample provider_none ("0.00000") ("0.00000") [row_far] =
      some ⟨[], [row_far], true⟩ ∧
    row_far.lat = "0.00000" ∧ row_far.lon = "0.00000" :=
  ⟨ev_gr_exact_repeat, rfl, rfl⟩

/-- C2 (amended): step 3 filters purely by distance — every entry kept in
the cache-hit result has distance strictly below 40.0 meters; equality of
the entry's stored queryLat/queryLon with the request's key grants no
exemption, so an exact-repeat entry whose address coordinate is 40.0
meters or more away is excluded. -/
theorem c2_amended_no_override (d : ℚ × ℚ → ℚ × ℚ → ℚ)
    (p : String → String → List RadarAddress) (lat lon : String)
    (store : List Geocode) (out : ResolveOut)
    (h : geo_reverse d p lat lon store = some out)
    (hcall : out.provider_called = false) :
    ∀ r ∈ out.result, r.distance < 40 := by
  rcases geo_reverse_inv d p lat lon store out h with
    ⟨gs, hh, _, hout⟩ | ⟨rs, _, _, hout⟩
  · subst hout
    intro r hr
    rcases hit_candidates_inv d lat lon store gs hh with ⟨ms, _, hfil⟩
    have hr2 : r ∈ ms.filter (fun g => decide (g.distance < 40)) := by
      rw [hfil] at hr
      simpa [distance_filter] using hr
    exact of_decide_eq_true (List.mem_filter.mp hr2).2
  · subst hout; simp at hcall

/-- C2 witness: a concrete cache hit whose single kept entry indeed has
distance below 40 meters. -/
theorem c2_amended_witness :
    geo_reverse distSample provider_none ("0.00000") ("0.00000") [row_near] =
      some ⟨[resp_near], [row_near], false⟩ ∧ resp_near.distance < 40 :=
  ⟨ev_gr_hit_near provider_none,
   c2_amended_no_override distSample provider_none ("0.00000") ("0.00000") [row_near]
     ⟨[resp_near], [row_near], false⟩ (ev_gr_hit_near provider_none) rfl resp_near
     (List.mem_singleton_self _)⟩

/-- C3 counterexample: for queryLat "37.77490", the pattern prefix the
code builds (string precision 4 truncates to 4 characters) is "37.7", not
the four-decimal "37.7749" the claim states; consequently the lookup
returns a stored entry with queryLat "37.70000", which does not begin
with "37.7749". -/
theorem c3_counterexample :
    take_chars ("37.77490") 4 = "37.7" ∧
    take_chars ("37.77490") 4 ≠ "37.7749" ∧
    cache_lookup [⟨"37.70000", "-122.41940", sample_address 0 0⟩]
      ("37.77490") ("-122.41940") =
      [⟨"37.70000", "-122.41940", sample_address 0 0⟩] ∧
    like_prefix_match ("37.7749") ("37.70000") = false := by
  refine ⟨by decide, by decide, ?_, by decide⟩
  have hlp : lookup_pred ("37.77490") ("-122.41940")
      ⟨"37.70000", "-122.41940", sample_address 0 0⟩ = true := by decide
  simp [cache_lookup, List.filter, hlp]

/-- C3 (amended): the lookup's prefixes are the first four characters of
each normalized query string (Rust string precision `{:.4}` truncates a
String, it does not reformat a number), and the lookup returns exactly
the stored entries whose queryLat and queryLon begin with those two
four-character prefixes. -/
theorem c3_amended_lookup (store : List Geocode) (lat lon : String) (g : Geocode) :
    g ∈ cache_lookup store lat lon ↔
      g ∈ store ∧ like_prefix_match (take_chars lat 4) g.lat = true ∧
        like_prefix_match (take_chars lon 4) g.lon = true := by
  unfold cache_lookup lookup_pred
  rw [List.mem_filter]
  simp [Bool.and_eq_true]

/-- C4 counterexample: the same raw input (lat "1.234567", lon "0")
resolved through the GET handler caches a row keyed by the 5-decimal
normalized strings ("1.23457", "0.00000"), while the bulk endpoint caches
a row keyed by the raw strings ("1.234567", "0") — the two paths do not
use the same queryKey, because the bulk handler performs no
normalization. -/
theorem c4_counterexample :
    (get_geo_reverse distSample provider_near (param_map ("1.234567") ("0")) []).2 =
      [⟨"1.23457", "0.00000", sample_address 0 0⟩] ∧
    Option.map Prod.snd (post_geo_reverse_bulk distSample provider_near
      [(("1.234567"), ("0"))] []) = some [⟨"1.234567", "0", sample_address 0 0⟩] ∧
    ("1.23457" : String) ≠ "1.234567" :=
  ⟨ev_get_c4, ev_bulk_c4, by decide⟩

/-- C4 (amended): only the single GET path normalizes — the GET handler
resolves with both raw parameters parsed and reformatted to exactly 5
decimal places, while the bulk loop passes each sub-request's raw
lat/lon strings to the resolver unchanged, so a bulk sub-request and a
single GET request with the same raw input may use different queryKeys. -/
theorem c4_amended_normalization (d : ℚ × ℚ → ℚ × ℚ → ℚ)
    (p : String → String → List RadarAddress) (rawLat rawLon : String)
    (flat flon : ℚ) (store : List Geocode)
    (hpa : parse_f64 rawLat = some flat) (hpo : parse_f64 rawLon = some flon) :
    get_geo_reverse d p (param_map rawLat rawLon) store =
      (match geo_reverse d p (format_decimals flat 5) (format_decimals flon 5) store with
       | none => (HandlerResult.panicked, store)
       | some out => (HandlerResult.ok out.result, out.store)) ∧
    run_bulk d p [(rawLat, rawLon)] store =
      (match geo_reverse d p rawLat rawLon store with
       | none => none
       | some out => some ([out.result], out.store)) := by
  constructor
  · cases hg : geo_reverse d p (format_decimals flat 5) (format_decimals flon 5) store with
    | none => simp +decide [get_geo_reverse, param_map, hpa, hpo, hg]
    | some out => simp +decide [get_geo_reverse, param_map, hpa, hpo, hg]
  · cases hg : geo_reverse d p rawLat rawLon store with
    | none => simp [run_bulk, hg]
    | some out => simp [run_bulk, hg]

/-- C4 witness: the amended statement at the concrete raw input
(lat "1.234567", lon "0") on the empty store. -/
theorem c4_amended_witness :
    get_geo_reverse distSample provider_near (param_map ("1.234567") ("0")) [] =
      (match geo_reverse distSample provider_near (format_decimals (1234567 / 1000000) 5)
          (format_decimals (0 : ℚ) 5) [] with
       | none => (HandlerResult.panicked, [])
       | some out => (HandlerResult.ok out.result, out.store)) ∧
    run_bulk distSample provider_near [(("1.234567"), ("0"))] [] =
      (match geo_reverse distSample provider_near ("1.234567") ("0") [] with
       | none => none
       | some out => some ([out.result], out.store)) :=
  c4_amended_normalization distSample provider_near ("1.234567") ("0")
    (1234567 / 1000000) 0 [] parse_1234567 parse_zero

/-- C5: whenever the distance-filtered candidate set of the cache lookup
is non-empty, the resolver returns exactly that set, reports no Provider
Client call, and leaves the store untouched — for every provider double
`p`, so no provider behaviour can influence a hit. -/
theorem c5_cache_hit_frame (d : ℚ × ℚ → ℚ × ℚ → ℚ)
    (p : String → String → List RadarAddress) (lat lon : String)
    (store : List Geocode) (gs : List GeocodeResponse)
    (hh : hit_candidates d lat lon store = some gs) (hne : gs ≠ []) :
    geo_reverse d p lat lon store = some ⟨gs, store, false⟩ :=
  geo_reverse_hit d p lat lon store gs hh hne

/-- C5 witness: a concrete hit on a one-row store returns the filtered
set, does not call the provider, and leaves the store unchanged. -/
theorem c5_witness :
    geo_reverse distSample provider_none ("0.00000") ("0.00000") [row_near] =
      some ⟨[resp_near], [row_near], false⟩ :=
  c5_cache_hit_frame distSample provider_none ("0.00000") ("0.00000") [row_near]
    [resp_near] ev_hc_hit_near (List.cons_ne_nil _ _)

/-- C6: the cache filter comparison is strict — an entry at distance
exactly 40.0 meters is dropped by `distance_filter`, one at 39.999 meters
is kept. -/
theorem c6_strict_threshold (g : GeocodeResponse) :
    (g.distance = 40 → distance_filter [g] = []) ∧
    (g.distance = 39.999 → distance_filter [g] = [g]) := by
  constructor
  · intro h
    have hd : ¬ (g.distance < 40) := by rw [h]; exact lt_irrefl _
    simp [distance_filter, List.filter_cons, hd]
  · intro h
    have hd : g.distance < 40 := by rw [h]; norm_num
    simp [distance_filter, List.filter_cons, hd]

/-- C6 witness: the threshold behaviour at two concrete entries, one at
exactly 40 meters (excluded) and one at 39.999 meters (included). -/
theorem c6_witness :
    distance_filter [⟨"0.00000", "0.00000", 40, sample_address 0 0⟩] = [] ∧
    distance_filter [⟨"0.00000", "0.00000", 39.999, sample_address 0 0⟩] =
      [⟨"0.00000", "0.00000", 39.999, sample_address 0 0⟩] :=
  ⟨(c6_strict_threshold _).1 rfl, (c6_strict_threshold _).2 rfl⟩

/-- C7: on a cache miss (empty filtered set), the response is exactly the
unfiltered per-address mapping of the provider's list — one
ResolvedAddress per provider address, in provider order (the address
projection of the response equals the provider list), with no 40-meter
cutoff applied, alongside the write-through inserts. -/
theorem c7_miss_unfiltered (d : ℚ × ℚ → ℚ × ℚ → ℚ)
    (p : String → String → List RadarAddress) (lat lon : String)
    (store : List Geocode) (rs : List GeocodeResponse)
    (hh : hit_candidates d lat lon store = some [])
    (hm : map_addresses d lat lon (p lat lon) = some rs) :
    geo_reverse d p lat lon store =
      some ⟨rs, store ++ (p lat lon).map (fun a => ⟨lat, lon, a⟩), true⟩ ∧
    rs.map GeocodeResponse.address = p lat lon ∧
    rs.length = (p lat lon).length :=
  ⟨geo_reverse_miss d p lat lon store rs hh hm,
   map_addresses_proj d lat lon (p lat lon) rs hm,
   map_addresses_length d lat lon (p lat lon) rs hm⟩

/-- C7 witness: a miss whose single provider address lies about 110574
meters away is still returned (no cutoff on the miss path). -/
theorem c7_witness :
    geo_reverse distSample provider_far ("0.00000") ("0.00000") [] =
      some ⟨[resp_far], [] ++ (provider_far ("0.00000") ("0.00000")).map
        (fun a => ⟨"0.00000", "0.00000", a⟩), true⟩ ∧
    [resp_far].map GeocodeResponse.address = provider_far ("0.00000") ("0.00000") ∧
    ([resp_far] : List GeocodeResponse).length =
      (provider_far ("0.00000") ("0.00000")).length :=
  c7_miss_unfiltered distSample provider_far ("0.00000") ("0.00000") [] [resp_far]
    (hit_candidates_nil distSample ("0.00000") ("0.00000"))
    (by simpa [provider_far] using ev_ma_far)

/-- C8: the bulk endpoint's flat output is the concatenation, in input
order, of the per-sub-request result lists — the first sub-request's
results precede everything the remaining sub-requests produce, against
the store state the first sub-request left behind. -/
theorem c8_bulk_order (d : ℚ × ℚ → ℚ × ℚ → ℚ)
    (p : String → String → List RadarAddress) (lat lon : String)
    (rest : List (String × String)) (store : List Geocode) (out : ResolveOut)
    (tailFlat : List GeocodeResponse) (st : List Geocode)
    (h1 : geo_reverse d p lat lon store = some out)
    (h2 : post_geo_reverse_bulk d p rest out.store = some (tailFlat, st)) :
    post_geo_reverse_bulk d p ((lat, lon) :: rest) store =
      some (out.result ++ tailFlat, st) := by
  rcases post_bulk_inv d p rest out.store tailFlat st h2 with ⟨lists, hrb, hflat⟩
  have hcons := run_bulk_cons d p lat lon rest store out lists st h1 hrb
  unfold post_geo_reverse_bulk
  rw [hcons]
  simp [hflat]

/-- C8 witness: two identical sub-requests — the first misses and caches,
the second hits the row the first inserted; the flat output is the first
request's results followed by the second's. -/
theorem c8_witness :
    post_geo_reverse_bulk distSample provider_near
      [(("0.00000"), ("0.00000")), (("0.00000"), ("0.00000"))] [] =
      some ([resp_near] ++ [resp_near], [row_near]) :=
  c8_bulk_order distSample provider_near ("0.00000") ("0.00000")
    [(("0.00000"), ("0.00000"))] [] ⟨[resp_near], [row_near], true⟩ [resp_near]
    [row_near] ev_gr_miss_near ev_bulk_tail

/-- C9 counterexample: a present but unparseable latitude ("abc") drives
the GET handler into the `.unwrap ()` panic outcome — an uncontrolled
abort of the handler, not a client error with a diagnostic string. -/
theorem c9_counterexample :
    get_geo_reverse distSample provider_none params_abc [] =
      (HandlerResult.panicked, []) :=
  ev_get_abc

/-- C9 (amended): only a missing parameter yields the 400 client error
with its short diagnostic ("missing lat"); a present but unparseable
lat value makes the handler panic via `.unwrap ()` — an uncontrolled
abort rather than a client error. -/
theorem c9_amended_param_handling (d : ℚ × ℚ → ℚ × ℚ → ℚ)
    (p : String → String → List RadarAddress) (params : String → Option String)
    (store : List Geocode) :
    (params ("lat") = none →
      get_geo_reverse d p params store =
        (HandlerResult.badRequest ("missing lat"), store)) ∧
    (∀ raw, params ("lat") = some raw → parse_f64 raw = none →
      get_geo_reverse d p params store = (HandlerResult.panicked, store)) := by
  constructor
  · intro h
    simp [get_geo_reverse, h]
  · intro raw h hp
    simp [get_geo_reverse, h, hp]

/-- C9 witness: the amended statement at concrete inputs — parameters
missing lat give the 400 diagnostic, parameters with lat "abc" panic. -/
theorem c9_amended_witness :
    get_geo_reverse distSample provider_none params_nolat [] =
      (HandlerResult.badRequest ("missing lat"), []) ∧
    get_geo_reverse distSample provider_none params_abc [] =
      (HandlerResult.panicked, []) :=
  ⟨(c9_amended_param_handling distSample provider_none params_nolat []).1 rfl,
   (c9_amended_param_handling distSample provider_none params_abc []).2 ("abc") rfl
     parse_abc⟩

/-- C10: the modelled Distance Evaluator is a function of its two
coordinate arguments (hence deterministic), symmetric in them, and zero
on identical inputs. -/
theorem c10_distance_algebra :
    (∀ a b : ℝ × ℝ, distanceMeters a b = distanceMeters b a) ∧
    (∀ a : ℝ × ℝ, distanceMeters a a = 0) := by
  constructor
  · intro a b
    have h1 : ∀ x y : ℝ, Real.sin ((x - y) / 2) ^ 2 = Real.sin ((y - x) / 2) ^ 2 := by
      intro x y
      rw [show (x - y) / 2 = -((y - x) / 2) by ring, Real.sin_neg]
      ring
    simp only [distanceMeters]
    rw [h1 (b.1 * (Real.pi / 180)) (a.1 * (Real.pi / 180)),
      h1 (b.2 * (Real.pi / 180)) (a.2 * (Real.pi / 180)),
      mul_comm (Real.cos (a.1 * (Real.pi / 180))) (Real.cos (b.1 * (Real.pi / 180)))]
  · intro a
    simp only [distanceMeters, sub_self, zero_div, Real.sin_zero]
    norm_num [Real.sqrt_zero, Real.arcsin_zero]
